import Mathlib

/-!
Shallow embedding of `service_host/managed_service_host.py`.

The Python class `ManagedServiceHost` is a thin client that asks an external
manager (over HTTP) to start or stop a subprocess.  We embed each method as a
pure function: the manager's response, the `is_running()` check and the
configuration module are inputs; the observable side effects (requests sent,
sleeps, prints, `atexit` registrations, the `connect()` call) are recorded in
an event trace, and a raised `UnexpectedResponse` exception is an `Option`
value returned next to the (possibly mutated) controller state.
-/

namespace ServiceHost

/-- The manager's HTTP response as the Python code consumes it:
`status_code` and `text` (the raw body) come from the transport;
`output` and `started` are the fields of `res.json()` that `start`
reads on the success path. -/
structure Response where
  status_code : Nat
  text : String
  output : String
  started : Bool
  deriving DecidableEq, Repr

/-- Modelled from the spec: the external configuration module
(`service_host/conf.py`, not part of the core) supplies a verbosity level and
a default exit-stop grace period in milliseconds; both are opaque values read
by the controller. -/
structure Settings where
  VERBOSITY : Int
  ON_EXIT_MANAGED_HOSTS_STOP_TIMEOUT : Nat
  deriving DecidableEq, Repr

/-- Modelled from the spec: the `Verbosity` thresholds `PROCESS_START` and
`PROCESS_STOP` come from the external configuration module; the code only
compares `settings.VERBOSITY` against them. -/
structure Verbosity where
  PROCESS_START : Int
  PROCESS_STOP : Int
  deriving DecidableEq, Repr

/-- The exception type raised on a non-200 manager response
(`service_host/exceptions.py` exports it; only its message matters here). -/
structure UnexpectedResponse where
  message : String
  deriving DecidableEq, Repr

/-- Structured form of the human-readable notifications printed by
`start` and `stop`. -/
inductive PrintMsg where
  | started (name : String)
  | stopped (name : String)
  | willStopIn (name : String) (timeoutMillis : Nat)
  deriving DecidableEq, Repr

/-- One observable side effect of a controller method:
an HTTP request to the manager (endpoint, config identifier, the optional
`timeout` param, and whether it is a POST), a `time.sleep` (in milliseconds),
a `print`, an `atexit.register(self.stop, timeout=...)`, or the external
`connect()` call made by `restart`. -/
inductive Event where
  | request (endpoint : String) (config : String) (timeout : Option Nat) (post : Bool)
  | sleepMillis (ms : Nat)
  | printed (msg : PrintMsg)
  | atexitRegisterStop (timeoutMillis : Nat)
  | connect
  deriving DecidableEq, Repr

/-- The controller's state: the config-file identifier (immutable), the
cached connection configuration (of an abstract type `Config`, mutated by
`start`), and the display name returned by the external `get_name()`. -/
structure ManagedServiceHost (Config : Type) where
  config_file : String
  config : Config
  name : String

/-- `self.get_name()`: display name, supplied by the external base class. -/
def ManagedServiceHost.get_name {Config : Type} (self : ManagedServiceHost Config) : String :=
  self.name

/-- Outcome of one method call: the controller state afterwards (unchanged on
the paths where Python raises before mutating), the raised exception if any,
and the trace of side effects in order. -/
structure MethodResult (Config : Type) where
  host : ManagedServiceHost Config
  err : Option UnexpectedResponse
  events : List Event

/-- `type(self).__name__` for this class. -/
def cls_name : String := "ManagedServiceHost"

/-- Modelled from the spec: the string form of the transport's response
object (`'{res}'.format(...)` calls `str` on a `requests.Response`, which is
`<Response [status]>`); the spec requires the status code to appear in the
error message. The transport itself is an external collaborator. -/
def responseRepr (res : Response) : String :=
  "<Response [" ++ (toString res.status_code ++ "]>")

/-- The message of the exception raised when `start` sees a non-200 status:
`'Attempted to start a {cls_name}: {res} - {res_text}'`. -/
def startErrorMessage (res : Response) : String :=
  "Attempted to start a " ++ (cls_name ++ (": " ++ (responseRepr res ++ (" - " ++ res.text))))

/-- `ManagedServiceHost.start`: send a POST `start` request carrying the
config file; on a non-200 status raise `UnexpectedResponse`; otherwise adopt
`json.loads(res.json()['output'])` as the new config, print a start
notification when the manager actually spawned the process and verbosity
allows, and register an `atexit` stop with the configured grace timeout.
`loads` is the external `json.loads` applied to the `output` string. -/
def start {Config : Type} (loads : String → Config) (settings : Settings)
    (verbosity : Verbosity) (res : Response)
    (self : ManagedServiceHost Config) : MethodResult Config :=
  let reqEvent := Event.request "start" self.config_file none true
  if res.status_code ≠ 200 then
    { host := self
      err := some ⟨startErrorMessage res⟩
      events := [reqEvent] }
  else
    let self' := { self with config := loads res.output }
    let startedPrint :=
      if res.started ∧ settings.VERBOSITY ≥ verbosity.PROCESS_START then
        [Event.printed (PrintMsg.started self.get_name)]
      else []
    { host := self'
      err := none
      events := [reqEvent] ++ startedPrint
        ++ [Event.atexitRegisterStop settings.ON_EXIT_MANAGED_HOSTS_STOP_TIMEOUT] }

/-- Python truthiness of the optional `timeout` argument: `None` and `0` are
falsy, any positive number is truthy. -/
def truthy (timeout : Option Nat) : Bool :=
  timeout.getD 0 ≠ 0

/-- The message of the exception raised when `stop` sees a non-200 status:
`'Attempted to stop {name}. Response: {res_code}: {res_text}'`. -/
def stopErrorMessage (name : String) (res : Response) : String :=
  "Attempted to stop " ++ (name ++ (". Response: " ++ (toString res.status_code ++ (": " ++ res.text))))

/-- `ManagedServiceHost.stop`: return immediately when `is_running()` is
false; otherwise send a POST `stop` request (the `timeout` param only when
truthy); on a non-200 status raise `UnexpectedResponse`; on success sleep
50 ms when no truthy timeout was given, then print a notification when
verbosity allows. `is_running` is the external running check's result and
`res` the manager's response to the request (unused when no request is
sent). -/
def stop {Config : Type} (settings : Settings) (verbosity : Verbosity)
    (is_running : Bool) (res : Response) (timeout : Option Nat)
    (self : ManagedServiceHost Config) : MethodResult Config :=
  if !is_running then
    { host := self, err := none, events := [] }
  else
    let paramsTimeout := if truthy timeout then timeout else none
    let reqEvent := Event.request "stop" self.config_file paramsTimeout true
    if res.status_code ≠ 200 then
      { host := self
        err := some ⟨stopErrorMessage self.get_name res⟩
        events := [reqEvent] }
    else
      let sleeps := if truthy timeout then [] else [Event.sleepMillis 50]
      let prints :=
        if settings.VERBOSITY ≥ verbosity.PROCESS_STOP then
          if truthy timeout then
            [Event.printed (PrintMsg.willStopIn self.get_name (timeout.getD 0))]
          else
            [Event.printed (PrintMsg.stopped self.get_name)]
        else []
      { host := self, err := none, events := [reqEvent] ++ sleeps ++ prints }

/-- `ManagedServiceHost.restart`: `self.stop()` (no timeout), then
`self.start()`, then `self.connect()` (external).  An exception from `stop`
or `start` propagates, so the later steps do not run; `stopRes`/`startRes`
are the manager's responses to the two requests. -/
def restart {Config : Type} (loads : String → Config) (settings : Settings)
    (verbosity : Verbosity) (is_running : Bool) (stopRes startRes : Response)
    (self : ManagedServiceHost Config) : MethodResult Config :=
  let s := stop settings verbosity is_running stopRes none self
  match s.err with
  | some e => { host := s.host, err := some e, events := s.events }
  | none =>
    let st := start loads settings verbosity startRes s.host
    match st.err with
    | some e => { host := st.host, err := some e, events := s.events ++ st.events }
    | none =>
      { host := st.host, err := none, events := s.events ++ st.events ++ [Event.connect] }

/-- Is this event a request to the given endpoint? -/
def Event.isRequestTo (endpoint : String) : Event → Bool
  | .request e _ _ _ => e = endpoint
  | _ => false

/-- Is this event a `time.sleep`? -/
def Event.isSleep : Event → Bool
  | .sleepMillis _ => true
  | _ => false

/-- Lifecycle events: manager requests and the `connect()` call. -/
def Event.isLifecycle : Event → Bool
  | .request _ _ _ _ => true
  | .connect => true
  | _ => false

/-- `s` contains `sub` as a substring. -/
def containsStr (s sub : String) : Prop :=
  ∃ p q : String, s = p ++ (sub ++ q)

theorem strAppendAssoc (a b c : String) : (a ++ b) ++ c = a ++ (b ++ c) := by
  apply String.ext
  simp [String.data_append]

/-- Concrete sample configuration values used by the witnesses. -/
def sampleSettings : Settings := ⟨500, 100⟩

/-- Concrete sample verbosity thresholds used by the witnesses. -/
def sampleVerbosity : Verbosity := ⟨100, 200⟩

/-- Concrete sample controller used by the witnesses. -/
def sampleHost : ManagedServiceHost String :=
  ⟨"host.config.js", "oldConfig", "ManagedServiceHost [127.0.0.1:9009]"⟩

/-- Concrete successful manager response used by the witnesses. -/
def okRes : Response := ⟨200, "body", "port 5000", true⟩

/-- Concrete failing manager response used by the witnesses. -/
def errRes : Response := ⟨500, "boom", "", false⟩

/-- Claim C1: when the manager answers a start request with status 200,
`start` replaces the controller's cached configuration wholesale with the
JSON-decoded value of the response body's `output` field. -/
theorem start_adopts_output_config {Config : Type} (loads : String → Config)
    (settings : Settings) (verbosity : Verbosity) (res : Response)
    (self : ManagedServiceHost Config) (h : res.status_code = 200) :
    (start loads settings verbosity res self).host.config = loads res.output := by
  simp [start, h]

theorem start_adopts_output_config_witness :
    okRes.status_code = 200 ∧
    (start (fun s => s) sampleSettings sampleVerbosity okRes sampleHost).host.config
      = "port 5000" :=
  ⟨rfl, start_adopts_output_config (fun s => s) sampleSettings sampleVerbosity okRes
    sampleHost rfl⟩

/-- Claim C2: when the manager answers a start request with a non-200
status, `start` raises `UnexpectedResponse` and the controller's cached
configuration is unchanged. -/
theorem start_non200_raises_and_preserves_config {Config : Type}
    (loads : String → Config) (settings : Settings) (verbosity : Verbosity)
    (res : Response) (self : ManagedServiceHost Config)
    (h : res.status_code ≠ 200) :
    (start loads settings verbosity res self).err.isSome = true ∧
    (start loads settings verbosity res self).host.config = self.config := by
  simp [start, h]

theorem start_non200_raises_and_preserves_config_witness :
    errRes.status_code ≠ 200 ∧
    ((start (fun s => s) sampleSettings sampleVerbosity errRes sampleHost).err.isSome = true ∧
     (start (fun s => s) sampleSettings sampleVerbosity errRes sampleHost).host.config
       = sampleHost.config) :=
  ⟨by decide,
   start_non200_raises_and_preserves_config (fun s => s) sampleSettings sampleVerbosity
     errRes sampleHost (by decide)⟩

/-- Claim C5: calling `stop` when the `is_running` check reports false sends
no request to the manager, raises no error, and returns immediately with the
state untouched. -/
theorem stop_not_running_noop {Config : Type} (settings : Settings)
    (verbosity : Verbosity) (res : Response) (timeout : Option Nat)
    (self : ManagedServiceHost Config) :
    stop settings verbosity false res timeout self
      = { host := self, err := none, events := [] } :=
  rfl

/-- Claim C8: every successful `start` registers an `atexit` action that
calls `stop` with the configured on-exit grace-period timeout. -/
theorem start_registers_atexit_stop {Config : Type} (loads : String → Config)
    (settings : Settings) (verbosity : Verbosity) (res : Response)
    (self : ManagedServiceHost Config) (h : res.status_code = 200) :
    Event.atexitRegisterStop settings.ON_EXIT_MANAGED_HOSTS_STOP_TIMEOUT
      ∈ (start loads settings verbosity res self).events := by
  simp [start, h]

theorem start_registers_atexit_stop_witness :
    okRes.status_code = 200 ∧
    Event.atexitRegisterStop sampleSettings.ON_EXIT_MANAGED_HOSTS_STOP_TIMEOUT
      ∈ (start (fun s => s) sampleSettings sampleVerbosity okRes sampleHost).events :=
  ⟨rfl, start_registers_atexit_stop (fun s => s) sampleSettings sampleVerbosity okRes
    sampleHost rfl⟩

/-- Claim C9: on a successful `start`, the start notification for the
controller's name is printed if and only if the response's `started` field
is true and the configured verbosity is at least the `PROCESS_START`
threshold. -/
theorem start_notification_iff {Config : Type} (loads : String → Config)
    (settings : Settings) (verbosity : Verbosity) (res : Response)
    (self : ManagedServiceHost Config) (h : res.status_code = 200) :
    (Event.printed (PrintMsg.started self.get_name)
        ∈ (start loads settings verbosity res self).events)
      ↔ (res.started = true ∧ settings.VERBOSITY ≥ verbosity.PROCESS_START) := by
  by_cases hc : res.started = true ∧ settings.VERBOSITY ≥ verbosity.PROCESS_START
  · simp [start, h, hc]
  · simp [start, h, hc]

theorem start_notification_iff_witness :
    okRes.status_code = 200 ∧
    ((Event.printed (PrintMsg.started sampleHost.get_name)
        ∈ (start (fun s => s) sampleSettings sampleVerbosity okRes sampleHost).events)
      ↔ (okRes.started = true ∧ sampleSettings.VERBOSITY ≥ sampleVerbosity.PROCESS_START)) :=
  ⟨rfl, start_notification_iff (fun s => s) sampleSettings sampleVerbosity okRes
    sampleHost rfl⟩

/-- Claim C10: on a non-200 start response, the only side effect of `start`
is the request itself — no `atexit` hook is registered and nothing is
printed — and the call raises. -/
theorem start_non200_frame {Config : Type} (loads : String → Config)
    (settings : Settings) (verbosity : Verbosity) (res : Response)
    (self : ManagedServiceHost Config) (h : res.status_code ≠ 200) :
    (start loads settings verbosity res self).events
      = [Event.request "start" self.config_file none true] ∧
    (start loads settings verbosity res self).err.isSome = true := by
  simp [start, h]

theorem start_non200_frame_witness :
    errRes.status_code ≠ 200 ∧
    ((start (fun s => s) sampleSettings sampleVerbosity errRes sampleHost).events
       = [Event.request "start" sampleHost.config_file none true] ∧
     (start (fun s => s) sampleSettings sampleVerbosity errRes sampleHost).err.isSome = true) :=
  ⟨by decide,
   start_non200_frame (fun s => s) sampleSettings sampleVerbosity errRes sampleHost
     (by decide)⟩

/-- Claim C3: `stop` on a running controller: with a truthy (positive)
`timeout` the request sent carries that timeout and no sleep happens; with
an absent or zero `timeout` the request carries no timeout field and the
call only returns normally after the 50 ms bounded sleep has been issued
(on the non-200 path the call does not return — it raises). -/
theorem stop_timeout_paths {Config : Type} (settings : Settings)
    (verbosity : Verbosity) (res : Response) (self : ManagedServiceHost Config) :
    (∀ t : Nat, 0 < t →
      (Event.request "stop" self.config_file (some t) true
          ∈ (stop settings verbosity true res (some t) self).events) ∧
      (stop settings verbosity true res (some t) self).events.filter Event.isSleep = [])
    ∧
    (∀ timeout : Option Nat, truthy timeout = false →
      (Event.request "stop" self.config_file none true
          ∈ (stop settings verbosity true res timeout self).events) ∧
      ((stop settings verbosity true res timeout self).err = none →
        Event.sleepMillis 50 ∈ (stop settings verbosity true res timeout self).events)) := by
  constructor
  · intro t ht
    have htr : truthy (some t) = true := by
      simp only [truthy, Option.getD_some, ne_eq, decide_eq_true_eq]
      omega
    by_cases hs : res.status_code = 200
    · by_cases hv : settings.VERBOSITY ≥ verbosity.PROCESS_STOP
      · simp [stop, htr, hs, hv, Event.isSleep]
      · simp [stop, htr, hs, hv, Event.isSleep]
    · simp [stop, htr, hs, Event.isSleep]
  · intro timeout htf
    by_cases hs : res.status_code = 200
    · by_cases hv : settings.VERBOSITY ≥ verbosity.PROCESS_STOP
      · simp [stop, htf, hs, hv]
      · simp [stop, htf, hs, hv]
    · simp [stop, htf, hs]

theorem stop_timeout_paths_witness :
    (0 < 7 ∧
      (Event.request "stop" sampleHost.config_file (some 7) true
          ∈ (stop sampleSettings sampleVerbosity true okRes (some 7) sampleHost).events) ∧
      (stop sampleSettings sampleVerbosity true okRes (some 7) sampleHost).events.filter
        Event.isSleep = [])
    ∧ (truthy none = false ∧
      (Event.request "stop" sampleHost.config_file none true
          ∈ (stop sampleSettings sampleVerbosity true okRes none sampleHost).events) ∧
      ((stop sampleSettings sampleVerbosity true okRes none sampleHost).err = none →
        Event.sleepMillis 50
          ∈ (stop sampleSettings sampleVerbosity true okRes none sampleHost).events)) :=
  ⟨⟨by decide,
    (stop_timeout_paths sampleSettings sampleVerbosity okRes sampleHost).1 7 (by decide)⟩,
   ⟨by decide,
    (stop_timeout_paths sampleSettings sampleVerbosity okRes sampleHost).2 none (by decide)⟩⟩

/-- Claim C4: `restart` on a healthy controller (running, both manager
responses 200) performs exactly one stop request, then one start request,
then the `connect` call, in that order; and when the stop step raises, no
start request is sent, the same error propagates, and the controller is
left in the state the failing `stop` left it in. -/
theorem restart_sequence {Config : Type} (loads : String → Config)
    (settings : Settings) (verbosity : Verbosity) (stopRes startRes : Response)
    (self : ManagedServiceHost Config) :
    (stopRes.status_code = 200 → startRes.status_code = 200 →
      (restart loads settings verbosity true stopRes startRes self).events.filter
          Event.isLifecycle
        = [Event.request "stop" self.config_file none true,
           Event.request "start" self.config_file none true,
           Event.connect])
    ∧
    (stopRes.status_code ≠ 200 →
      (restart loads settings verbosity true stopRes startRes self).events.filter
          (Event.isRequestTo "start") = [] ∧
      (restart loads settings verbosity true stopRes startRes self).err
        = (stop settings verbosity true stopRes none self).err ∧
      (restart loads settings verbosity true stopRes startRes self).host = self) := by
  constructor
  · intro h1 h2
    by_cases hv1 : settings.VERBOSITY ≥ verbosity.PROCESS_STOP
    · by_cases hv2 : startRes.started = true ∧ settings.VERBOSITY ≥ verbosity.PROCESS_START
      · simp [restart, stop, start, truthy, h1, h2, hv1, hv2, Event.isLifecycle]
      · simp [restart, stop, start, truthy, h1, h2, hv1, hv2, Event.isLifecycle]
    · by_cases hv2 : startRes.started = true ∧ settings.VERBOSITY ≥ verbosity.PROCESS_START
      · simp [restart, stop, start, truthy, h1, h2, hv1, hv2, Event.isLifecycle]
      · simp [restart, stop, start, truthy, h1, h2, hv1, hv2, Event.isLifecycle]
  · intro h1
    refine ⟨?_, ?_, ?_⟩
    · simp [restart, stop, h1, Event.isRequestTo]
    · simp [restart, stop, h1]
    · simp [restart, stop, h1]

theorem restart_sequence_witness :
    (okRes.status_code = 200 ∧
      (restart (fun s => s) sampleSettings sampleVerbosity true okRes okRes
          sampleHost).events.filter Event.isLifecycle
        = [Event.request "stop" sampleHost.config_file none true,
           Event.request "start" sampleHost.config_file none true,
           Event.connect])
    ∧ (errRes.status_code ≠ 200 ∧
      (restart (fun s => s) sampleSettings sampleVerbosity true errRes okRes
          sampleHost).events.filter (Event.isRequestTo "start") = []) :=
  ⟨⟨rfl,
    (restart_sequence (fun s => s) sampleSettings sampleVerbosity okRes okRes
      sampleHost).1 rfl rfl⟩,
   ⟨by decide,
    ((restart_sequence (fun s => s) sampleSettings sampleVerbosity errRes okRes
      sampleHost).2 (by decide)).1⟩⟩

/-- Claim C6: the `UnexpectedResponse` raised by `start` on a non-200
response carries the controller's display name (the class name
`type(self).__name__` in this message), the HTTP status code, and the
response body text in its message. -/
theorem start_error_message_contents {Config : Type} (loads : String → Config)
    (settings : Settings) (verbosity : Verbosity) (res : Response)
    (self : ManagedServiceHost Config) (h : res.status_code ≠ 200) :
    ∃ m : UnexpectedResponse,
      (start loads settings verbosity res self).err = some m ∧
      containsStr m.message cls_name ∧
      containsStr m.message (toString res.status_code) ∧
      containsStr m.message res.text := by
  refine ⟨⟨startErrorMessage res⟩, by simp [start, h], ?_, ?_, ?_⟩
  · exact ⟨"Attempted to start a ",
      ": " ++ (responseRepr res ++ (" - " ++ res.text)), rfl⟩
  · refine ⟨"Attempted to start a " ++ (cls_name ++ (": " ++ "<Response [")),
      "]>" ++ (" - " ++ res.text), ?_⟩
    simp only [startErrorMessage, responseRepr, strAppendAssoc]
  · refine ⟨"Attempted to start a "
        ++ (cls_name ++ (": " ++ (responseRepr res ++ " - "))), "", ?_⟩
    simp only [startErrorMessage, responseRepr, strAppendAssoc, String.append_empty]

theorem start_error_message_contents_witness :
    errRes.status_code ≠ 200 ∧
    (∃ m : UnexpectedResponse,
      (start (fun s => s) sampleSettings sampleVerbosity errRes sampleHost).err = some m ∧
      containsStr m.message cls_name ∧
      containsStr m.message (toString errRes.status_code) ∧
      containsStr m.message errRes.text) :=
  ⟨by decide,
   start_error_message_contents (fun s => s) sampleSettings sampleVerbosity errRes
     sampleHost (by decide)⟩

/-- Claim C7: the `UnexpectedResponse` raised by `stop` on a non-200
response from a running controller carries the controller's display name
(`get_name()`), the response status code, and the response body text in its
message. -/
theorem stop_error_message_contents {Config : Type} (settings : Settings)
    (verbosity : Verbosity) (res : Response) (timeout : Option Nat)
    (self : ManagedServiceHost Config) (h : res.status_code ≠ 200) :
    ∃ m : UnexpectedResponse,
      (stop settings verbosity true res timeout self).err = some m ∧
      containsStr m.message self.get_name ∧
      containsStr m.message (toString res.status_code) ∧
      containsStr m.message res.text := by
  refine ⟨⟨stopErrorMessage self.get_name res⟩, by simp [stop, h], ?_, ?_, ?_⟩
  · exact ⟨"Attempted to stop ",
      ". Response: " ++ (toString res.status_code ++ (": " ++ res.text)), rfl⟩
  · refine ⟨"Attempted to stop " ++ (self.get_name ++ ". Response: "),
      ": " ++ res.text, ?_⟩
    simp only [stopErrorMessage, strAppendAssoc]
  · refine ⟨"Attempted to stop "
        ++ (self.get_name ++ (". Response: " ++ (toString res.status_code ++ ": "))),
      "", ?_⟩
    simp only [stopErrorMessage, strAppendAssoc, String.append_empty]

theorem stop_error_message_contents_witness :
    errRes.status_code ≠ 200 ∧
    (∃ m : UnexpectedResponse,
      (stop sampleSettings sampleVerbosity true errRes none sampleHost).err = some m ∧
      containsStr m.message sampleHost.get_name ∧
      containsStr m.message (toString (500 : Nat)) ∧
      containsStr m.message "boom") :=
  ⟨by decide,
   stop_error_message_contents sampleSettings sampleVerbosity errRes none sampleHost
     (by decide)⟩

end ServiceHost
